import Mathlib

/-!
Verification of the publish-orchestration engine of the serverless social
uploader. The Python sources (`src/main.py`, `src/platforms/youtube.py`,
`src/platforms/tiktok.py`, `src/platforms/meta.py`, `src/utils/secrets.py`)
are shallowly embedded: network and browser interactions become explicit
oracles (records of outcomes), exceptions become `Except`, and the side
effects relevant to the specification (media download, uploader network
calls) are logged in an explicit effect trace.
-/

/-! ## Python coercion helpers

Python's `a or b` on optional/plain strings treats `None` and `""` as falsy;
`not x` on an optional string is true exactly when `x` is `None` or `""`. -/

/-- Python `a or b` where `a` is an optional string and `b` a string. -/
def pyOrStr (a : Option String) (b : String) : String :=
  match a with
  | none => b
  | some s => if s = "" then b else s

/-- Python `a or b` on two plain strings. -/
def pyOrS (a b : String) : String :=
  if a = "" then b else a

/-- Python truthiness negation `not x` for an optional string. -/
def pyFalsy (a : Option String) : Bool :=
  match a with
  | none => true
  | some s => s = ""

/-- Lower-case a string character by character (Python `str.lower`). -/
def lowerStr (s : String) : String :=
  ⟨s.data.map Char.toLower⟩

/-- Whether `sub` occurs as an infix of the character list `s`. -/
def listInfix (sub s : List Char) : Bool :=
  match s with
  | [] => sub.isEmpty
  | _ :: rest => sub.isPrefixOf s || listInfix sub rest

/-- Whether `sub` occurs as a substring of `s` (Python `sub in s`). -/
def containsSub (s sub : String) : Bool :=
  listInfix sub.data s.data

/-! ## Upload result dictionaries

Each uploader returns a Python dict; the keys that ever occur are modelled
as optional fields of one record. -/

/-- Result dict produced by an upload attempt (`platform`, `status`,
and the optional keys the various uploaders attach). -/
structure UploadResult where
  platform : String
  status : String
  message : Option String := none
  videoId : Option String := none
  videoUrl : Option String := none
  mediaId : Option String := none
  errorCode : Option Nat := none
  crossPostedToFacebook : Option Bool := none
  title : Option String := none
  privacyStatus : Option String := none
  caption : Option String := none
deriving DecidableEq, Repr

/-- Error result dict `{"platform": p, "status": "error", "message": msg}`. -/
def errEntry (p msg : String) : UploadResult :=
  { platform := p, status := "error", message := some msg }

/-- Dry-run result dict `{"platform": p, "status": "validated", "message": "Secrets found"}`. -/
def validatedEntry (p : String) : UploadResult :=
  { platform := p, status := "validated", message := some "Secrets found" }

/-- Supported platforms (`main.Platform`). -/
inductive Platform where
  | youtube
  | tiktok
  | facebook
  | instagram
deriving DecidableEq, Repr

/-- The string value of a platform (`Platform.value` in the source enum). -/
def Platform.value : Platform → String
  | .youtube => "youtube"
  | .tiktok => "tiktok"
  | .facebook => "facebook"
  | .instagram => "instagram"

/-! ## YouTube module (`src/platforms/youtube.py`)

The resumable upload loop `_resumable_upload` is embedded over a trace of
chunk outcomes: each entry is one return/raise of `insert_request.next_chunk()`. -/

/-- `MAX_RETRIES` from `youtube.py`. -/
def MAX_RETRIES : Nat := 10

/-- `RETRIABLE_STATUS_CODES` from `youtube.py`. -/
def RETRIABLE_STATUS_CODES : List Nat := [500, 502, 503, 504]

/-- One outcome of `insert_request.next_chunk()`: the final response arrives,
a chunk completes with progress, an `HttpError` is raised, or one of the
`RETRIABLE_EXCEPTIONS` transport errors is raised. -/
inductive ChunkEvent where
  | done (resp : String)
  | progress
  | httpErr (status : Nat) (content : String)
  | ioErr (msg : String)
deriving DecidableEq, Repr

/-- Whether a chunk event is a transient (retriable) failure: an `HttpError`
with a retriable status, or a retriable transport exception. -/
def ChunkEvent.isTransient : ChunkEvent → Bool
  | .httpErr s _ => RETRIABLE_STATUS_CODES.contains s
  | .ioErr _ => true
  | _ => false

/-- Possible outcomes of `_resumable_upload`. `incomplete` marks a trace that
ends before the upload finishes (the Python loop would keep waiting). -/
inductive UploadOutcome where
  | success (resp : String)
  | retriesExhausted
  | nonRetriable (status : Nat) (content : String)
  | incomplete
deriving DecidableEq, Repr

/-- Embedding of `_resumable_upload`: consume chunk events with the running
`retry` counter; on a transient failure increment `retry`, fail with
`retriesExhausted` once `retry > MAX_RETRIES`, otherwise sleep
`random() * 2 ^ retry` (the returned list records the `2 ^ retry` factor of
each sleep, in order) and continue; a non-retriable `HttpError` re-raises. -/
def resumableUpload : List ChunkEvent → Nat → UploadOutcome × List Nat
  | [], _ => (.incomplete, [])
  | .done r :: _, _ => (.success r, [])
  | .progress :: rest, retry => resumableUpload rest retry
  | .httpErr s c :: rest, retry =>
    if RETRIABLE_STATUS_CODES.contains s then
      if retry + 1 > MAX_RETRIES then (.retriesExhausted, [])
      else
        let p := resumableUpload rest (retry + 1)
        (p.1, 2 ^ (retry + 1) :: p.2)
    else (.nonRetriable s c, [])
  | .ioErr _ :: rest, retry =>
    if retry + 1 > MAX_RETRIES then (.retriesExhausted, [])
    else
      let p := resumableUpload rest (retry + 1)
      (p.1, 2 ^ (retry + 1) :: p.2)

/-- Container for YouTube OAuth2 credentials (`YouTubeCredentials`). -/
structure YouTubeCredentials where
  clientId : String
  clientSecret : String
  refreshToken : String
  accessToken : Option String := none
deriving DecidableEq, Repr

/-- Metadata for a YouTube upload (`youtube.VideoMetadata`). -/
structure YouTubeVideoMetadata where
  title : String
  description : String := ""
  categoryId : String := "27"
  privacyStatus : String := "private"
  madeForKids : Bool := false
  aiGenerated : Bool := false
deriving DecidableEq, Repr

/-! ## TikTok module (`src/platforms/tiktok.py`)

The Playwright pipeline of `upload_video` is embedded over a record of
per-step browser outcomes; each helper keeps its source truth table. -/

/-- Container for TikTok session credentials. -/
structure TikTokCredentials where
  sessionCookie : String
deriving DecidableEq, Repr

/-- Metadata for a TikTok upload (`TikTokVideoMetadata`). -/
structure TikTokVideoMetadata where
  caption : String := ""
  allowComments : Bool := true
  allowDuet : Bool := true
  allowStitch : Bool := true
  visibility : String := "public"
deriving DecidableEq, Repr

/-- Outcome of `_upload_video_file`: a file input was found and filled, no
file input existed, or an exception occurred. -/
inductive FileUploadOutcome where
  | found
  | notFound
  | exc (msg : String)
deriving DecidableEq, Repr

/-- Truth table of `_upload_video_file`. -/
def uploadVideoFile : FileUploadOutcome → Bool
  | .found => true
  | .notFound => false
  | .exc _ => false

/-- Outcome of `_wait_for_video_processing`: some Post-button selector became
enabled, every selector timed out, or an unexpected exception occurred. -/
inductive ProcessingOutcome where
  | enabled (selIdx : Nat)
  | allTimedOut
  | exc (msg : String)
deriving DecidableEq, Repr

/-- Truth table of `_wait_for_video_processing`: note that exhausting the
bounded wait on every selector logs a warning and returns `True`
("Continue anyway"); only an unexpected exception returns `False`. -/
def waitForVideoProcessing : ProcessingOutcome → Bool
  | .enabled _ => true
  | .allTimedOut => true
  | .exc _ => false

/-- Outcome of `_fill_caption`: a caption selector matched, none matched, or
an exception occurred. -/
inductive CaptionOutcome where
  | matched (selIdx : Nat)
  | noneMatched
  | exc (msg : String)
deriving DecidableEq, Repr

/-- Truth table of `_fill_caption` (no selector matching is non-fatal). -/
def fillCaption : CaptionOutcome → Bool
  | .matched _ => true
  | .noneMatched => true
  | .exc _ => false

/-- Outcome of `_click_post_button`. -/
inductive PostClickOutcome where
  | clicked
  | noEnabledButton
  | exc (msg : String)
deriving DecidableEq, Repr

/-- Truth table of `_click_post_button`. -/
def clickPostButton : PostClickOutcome → Bool
  | .clicked => true
  | .noEnabledButton => false
  | .exc _ => false

/-- Browser-session outcomes of one TikTok upload attempt: whether navigation
timed out, the URL after navigation, whether the upload page rendered, and
the outcome of each later step. -/
structure TikTokRun where
  navTimeout : Bool
  urlAfterNav : String
  uploadReady : Bool
  fileUpload : FileUploadOutcome
  processing : ProcessingOutcome
  captionOutcome : CaptionOutcome
  postClick : PostClickOutcome
deriving DecidableEq, Repr

/-- Success result dict of the TikTok pipeline, with the caption truncated to
50 characters as in the source. -/
def tiktokSuccessEntry (m : TikTokVideoMetadata) : UploadResult :=
  { platform := "tiktok", status := "success",
    message := some "Video uploaded successfully",
    caption := some (if m.caption.length > 50 then m.caption.take 50 ++ "..." else m.caption) }

/-- Embedding of `tiktok.upload_video`: a missing video file raises
`FileNotFoundError` (the `Except.error` case); afterwards the ordered steps
run, each aborting with its step-specific message on failure, except that
caption filling is attempted only for a non-empty caption and its outcome is
ignored, and exhausting the processing wait continues anyway. -/
def tiktokUploadVideo (fileExists : Bool) (videoPath : String)
    (run : TikTokRun) (m : TikTokVideoMetadata) : Except String UploadResult :=
  if !fileExists then
    .error ("Video file not found: " ++ videoPath)
  else if run.navTimeout then
    .ok (errEntry "tiktok" "Navigation timeout - TikTok may be blocking automated access")
  else if containsSub (lowerStr run.urlAfterNav) "login" then
    .ok (errEntry "tiktok" "Session cookie expired. Please extract a new cookie.")
  else if !run.uploadReady then
    .ok (errEntry "tiktok" "Upload page failed to load")
  else if !uploadVideoFile run.fileUpload then
    .ok (errEntry "tiktok" "Failed to upload video file")
  else if !waitForVideoProcessing run.processing then
    .ok (errEntry "tiktok" "Video processing failed or timed out")
  else if !clickPostButton run.postClick then
    .ok (errEntry "tiktok" "Failed to click Post button")
  else
    .ok (tiktokSuccessEntry m)

/-! ## Meta module (`src/platforms/meta.py`)

Graph API interactions are embedded as an oracle record `MetaApi`; each
upload function additionally returns the ordered list of Graph API calls it
performed, so that fail-fast and parameter properties are statable. -/

/-- `MAX_POLL_ATTEMPTS` from `meta.py`. -/
def MAX_POLL_ATTEMPTS : Nat := 120

/-- `POLL_INTERVAL` (seconds) from `meta.py`. -/
def POLL_INTERVAL : Nat := 5

/-- Container for Meta authentication credentials (`MetaCredentials`). -/
structure MetaCredentials where
  accessToken : String
  pageId : Option String := none
  instagramUserId : Option String := none
deriving DecidableEq, Repr

/-- Metadata for a Meta upload (`MetaVideoMetadata`). -/
structure MetaVideoMetadata where
  title : String := ""
  description : String := ""
  caption : String := ""
  shareToFacebook : Bool := true
deriving DecidableEq, Repr

/-- One Graph API network call performed by the Meta module. -/
inductive MetaCall where
  | fbVideosPost (pageId : String) (params : List (String × String))
  | containerCreate (igUserId : String) (params : List (String × String))
  | statusQuery (containerId : String)
  | mediaPublish (igUserId : String)
deriving DecidableEq, Repr

/-- Outcome of the single Facebook `/videos` POST: a JSON body with an `id`,
a JSON body without one (carrying the extracted error message), an
`HTTPStatusError` (carrying the extracted message), or another exception. -/
inductive FbResp where
  | okWithId (id : String)
  | okNoId (msg : String)
  | statusError (code : Nat) (msg : String)
  | exc (msg : String)
deriving DecidableEq, Repr

/-- Outcome of the Instagram container-creation POST: `ok` carries
`result.get("id")` (which may be absent). -/
inductive CreateResp where
  | ok (id : Option String)
  | statusError (code : Nat) (msg : String)
  | exc (msg : String)
deriving DecidableEq, Repr

/-- Outcome of the Instagram `media_publish` POST. -/
inductive PublishResp where
  | ok (id : Option String)
  | statusError (code : Nat) (msg : String)
  | exc (msg : String)
deriving DecidableEq, Repr

/-- Oracle describing the Graph API's behaviour during one job:
`pollStatus i` is `result.get("status_code")` of the i-th status query. -/
structure MetaApi where
  fbResp : FbResp
  createResp : CreateResp
  pollStatus : Nat → Option String
  publishResp : PublishResp

/-- Parameters of the Facebook `/videos` POST (`meta.py` lines 90-96). -/
def fbUploadParams (videoUrl : String) (c : MetaCredentials) (m : MetaVideoMetadata) :
    List (String × String) :=
  [("access_token", c.accessToken),
   ("file_url", videoUrl),
   ("title", m.title),
   ("description", pyOrS m.description m.caption),
   ("published", "true")]

/-- Embedding of `_upload_video_to_facebook`: fail fast when `page_id` is
falsy (before any network call), otherwise perform the single POST and map
its outcome to a result dict. -/
def uploadVideoToFacebook (api : MetaApi) (videoUrl : String)
    (c : MetaCredentials) (m : MetaVideoMetadata) : List MetaCall × UploadResult :=
  if pyFalsy c.pageId then
    ([], errEntry "facebook" "page_id is required for Facebook uploads")
  else
    let pid := c.pageId.getD ""
    let calls := [MetaCall.fbVideosPost pid (fbUploadParams videoUrl c m)]
    match api.fbResp with
    | .okWithId vid =>
      (calls, { platform := "facebook", status := "success", videoId := some vid,
                videoUrl := some ("https://www.facebook.com/" ++ pid ++ "/videos/" ++ vid) })
    | .okNoId msg => (calls, errEntry "facebook" msg)
    | .statusError code msg =>
      (calls, { errEntry "facebook" msg with errorCode := some code })
    | .exc msg => (calls, errEntry "facebook" msg)

/-- Parameters of the Instagram container-creation POST (`meta.py` lines
154-165): the Facebook cross-post parameter is added only when the share
flag is set and `page_id` is truthy. -/
def instagramContainerParams (videoUrl : String) (c : MetaCredentials)
    (m : MetaVideoMetadata) : List (String × String) :=
  let base :=
    [("access_token", c.accessToken),
     ("media_type", "REELS"),
     ("video_url", videoUrl),
     ("caption", pyOrS m.caption (pyOrS m.description m.title)),
     ("share_to_feed", "true")]
  if m.shareToFacebook && !pyFalsy c.pageId then
    base ++ [("collaborate_with_sharing_on_facebook", "true")]
  else
    base

/-- Exit condition of the container polling loop: `FINISHED`, a terminal
`ERROR`/`EXPIRED` status, or attempt exhaustion. -/
inductive PollExit where
  | finished
  | failedContainer
  | timedOut
deriving DecidableEq, Repr

/-- Polling loop of `_wait_for_container_ready`: `queries` status queries
already made, `remaining` loop iterations left. Returns the exit condition
and the total number of status queries made. -/
def waitLoop (pollStatus : Nat → Option String) (queries remaining : Nat) :
    PollExit × Nat :=
  match remaining with
  | 0 => (.timedOut, queries)
  | r + 1 =>
    let s := pollStatus queries
    if s = some "FINISHED" then (.finished, queries + 1)
    else if s = some "ERROR" || s = some "EXPIRED" then (.failedContainer, queries + 1)
    else waitLoop pollStatus (queries + 1) r

/-- Embedding of `_wait_for_container_ready`: poll up to `MAX_POLL_ATTEMPTS`
times; the Python function returns `True` exactly for the `finished` exit. -/
def waitForContainerReady (pollStatus : Nat → Option String) : PollExit × Nat :=
  waitLoop pollStatus 0 MAX_POLL_ATTEMPTS

/-- Embedding of `_upload_video_to_instagram`: fail fast when
`instagram_user_id` is falsy; otherwise create the container, poll its
status, and publish, mapping every failure to an error result dict. -/
def uploadVideoToInstagram (api : MetaApi) (videoUrl : String)
    (c : MetaCredentials) (m : MetaVideoMetadata) : List MetaCall × UploadResult :=
  if pyFalsy c.instagramUserId then
    ([], errEntry "instagram" "instagram_user_id is required for Instagram uploads")
  else
    let uid := c.instagramUserId.getD ""
    let params := instagramContainerParams videoUrl c m
    match api.createResp with
    | .exc msg => ([.containerCreate uid params], errEntry "instagram" msg)
    | .statusError code msg =>
      ([.containerCreate uid params], { errEntry "instagram" msg with errorCode := some code })
    | .ok cidOpt =>
      if pyFalsy cidOpt then
        ([.containerCreate uid params], errEntry "instagram" "Failed to create media container")
      else
        let cid := cidOpt.getD ""
        let poll := waitForContainerReady api.pollStatus
        let trace := MetaCall.containerCreate uid params ::
          List.replicate poll.2 (MetaCall.statusQuery cid)
        match poll.1 with
        | .failedContainer =>
          (trace, errEntry "instagram" "Video processing failed or timed out")
        | .timedOut =>
          (trace, errEntry "instagram" "Video processing failed or timed out")
        | .finished =>
          match api.publishResp with
          | .ok (some mid) =>
            (trace ++ [.mediaPublish uid],
             { platform := "instagram", status := "success", mediaId := some mid,
               crossPostedToFacebook := some (m.shareToFacebook && c.pageId.isSome) })
          | .ok none =>
            (trace ++ [.mediaPublish uid],
             errEntry "instagram" "Publish failed - no media ID returned")
          | .statusError code msg =>
            (trace ++ [.mediaPublish uid],
             { errEntry "instagram" msg with errorCode := some code })
          | .exc msg =>
            (trace ++ [.mediaPublish uid], errEntry "instagram" msg)

/-! ## Orchestrator (`src/main.py`)

`upload_to_platform` and `process_publish_request` are embedded over an
environment of oracles: the secret store, the shared media download, the
YouTube and TikTok uploaders (which may raise), and the Graph API. The
effect trace records the media download and every uploader invocation. -/

/-- One observable side effect of the orchestrator: the shared media
download, the invocation of a platform uploader, or a Graph API call made
by the Meta module on the orchestrator's behalf. -/
inductive Effect where
  | download
  | uploaderCall (p : Platform)
  | metaCall (c : MetaCall)
deriving DecidableEq, Repr

/-- Environment of external collaborators for one job:
`secret ch platform key` models `get_channel_secret` (raising `NotFound` as
`Except.error`); `downloadResult` the outcome of `download_from_url`;
`youtubeUpload`/`tiktokUpload` the platform modules' `upload_video`
coroutines (which may raise); `metaApi` the Graph API. -/
structure Env where
  secret : String → String → String → Except String String
  downloadResult : Except String Unit
  youtubeUpload : String → YouTubeCredentials → YouTubeVideoMetadata → Except String UploadResult
  tiktokUpload : String → TikTokCredentials → TikTokVideoMetadata → Except String UploadResult
  metaApi : MetaApi

/-- The source uploader modules always set the `platform` key of the dicts
they return; an environment is well formed when its uploader oracles do
the same (as `youtube.upload_video` and `tiktok.upload_video` do). -/
def Env.WellFormed (env : Env) : Prop :=
  (∀ path c m r, env.youtubeUpload path c m = .ok r → r.platform = "youtube") ∧
  (∀ path c m r, env.tiktokUpload path c m = .ok r → r.platform = "tiktok")

/-- YouTube metadata constructed by the dispatcher (`main.py` lines 214-218). -/
def ytMetaOf (title description : Option String) : YouTubeVideoMetadata :=
  { title := pyOrStr title "Untitled Video",
    description := pyOrStr description "",
    privacyStatus := "private" }

/-- Instagram credentials constructed by the dispatcher (`main.py` lines
278-281): no `page_id` is ever passed, so it keeps its `None` default. -/
def instagramDispatchCredentials (accessToken userId : String) : MetaCredentials :=
  { accessToken := accessToken, pageId := none, instagramUserId := some userId }

/-- Embedding of `upload_to_platform`: resolve the platform's secrets in
dispatch order (a missing secret becomes an error dict), return a
`validated` dict on dry run, otherwise invoke the platform's uploader and
convert any raised exception into an error dict. -/
def uploadToPlatform (env : Env) (platform : Platform)
    (channelId videoPath videoUrl : String)
    (title description caption : Option String) (dryRun : Bool) :
    List Effect × UploadResult :=
  match platform with
  | .youtube =>
    match env.secret channelId "youtube" "client_id" with
    | .error e => ([], errEntry "youtube" e)
    | .ok clientId =>
      match env.secret channelId "youtube" "client_secret" with
      | .error e => ([], errEntry "youtube" e)
      | .ok clientSecret =>
        match env.secret channelId "youtube" "refresh_token" with
        | .error e => ([], errEntry "youtube" e)
        | .ok refreshToken =>
          if dryRun then ([], validatedEntry "youtube")
          else
            match env.youtubeUpload videoPath
                ⟨clientId, clientSecret, refreshToken, none⟩
                (ytMetaOf title description) with
            | .error e => ([.uploaderCall .youtube], errEntry "youtube" e)
            | .ok r => ([.uploaderCall .youtube], r)
  | .tiktok =>
    match env.secret channelId "tiktok" "session_cookie" with
    | .error e => ([], errEntry "tiktok" e)
    | .ok sessionCookie =>
      if dryRun then ([], validatedEntry "tiktok")
      else
        match env.tiktokUpload videoPath ⟨sessionCookie⟩
            { caption := pyOrStr caption (pyOrStr title "") } with
        | .error e => ([.uploaderCall .tiktok], errEntry "tiktok" e)
        | .ok r => ([.uploaderCall .tiktok], r)
  | .facebook =>
    match env.secret channelId "facebook" "access_token" with
    | .error e => ([], errEntry "facebook" e)
    | .ok accessToken =>
      match env.secret channelId "facebook" "page_id" with
      | .error e => ([], errEntry "facebook" e)
      | .ok pageId =>
        if dryRun then ([], validatedEntry "facebook")
        else
          let creds : MetaCredentials :=
            { accessToken := accessToken, pageId := some pageId, instagramUserId := none }
          let meta : MetaVideoMetadata :=
            { title := pyOrStr title "",
              description := pyOrStr description (pyOrStr caption "") }
          let fb := uploadVideoToFacebook env.metaApi videoUrl creds meta
          (.uploaderCall .facebook :: fb.1.map .metaCall, fb.2)
  | .instagram =>
    match env.secret channelId "instagram" "access_token" with
    | .error e => ([], errEntry "instagram" e)
    | .ok accessToken =>
      match env.secret channelId "instagram" "user_id" with
      | .error e => ([], errEntry "instagram" e)
      | .ok userId =>
        if dryRun then ([], validatedEntry "instagram")
        else
          let creds := instagramDispatchCredentials accessToken userId
          let meta : MetaVideoMetadata :=
            { caption := pyOrStr caption (pyOrStr description (pyOrStr title "")) }
          let ig := uploadVideoToInstagram env.metaApi videoUrl creds meta
          (.uploaderCall .instagram :: ig.1.map .metaCall, ig.2)

/-- Request model of the `/publish` endpoint (`PublishRequest`). -/
structure PublishRequest where
  channelId : String
  videoUrl : String
  platforms : List Platform
  title : Option String := none
  description : Option String := none
  caption : Option String := none

/-- Path component of a URL, as `urllib.parse.urlparse(url).path` for
`scheme://host/path` URLs (query and fragment are not modelled). -/
def urlParsePath (url : String) : String :=
  match url.splitOn "://" with
  | [_, rest] =>
    match rest.splitOn "/" with
    | [] => ""
    | [_] => ""
    | _ :: parts => "/" ++ String.intercalate "/" parts
  | _ => url

/-- Local file name for the downloaded video (`main.py` line 315):
`parsed_url.path.split("/")[-1] or "video.mp4"`. -/
def videoFilename (url : String) : String :=
  pyOrS (((urlParsePath url).splitOn "/").getLastD "") "video.mp4"

/-- Per-platform loop of `process_publish_request` (`main.py` lines
330-355): one `upload_to_platform` call per requested platform, in request
order, appending each result. -/
def publishLoop (env : Env) (req : PublishRequest) (dryRun : Bool)
    (videoPath : String) : List Platform → List Effect × List UploadResult
  | [] => ([], [])
  | p :: ps =>
    let r := uploadToPlatform env p req.channelId videoPath req.videoUrl
      req.title req.description req.caption dryRun
    let rest := publishLoop env req dryRun videoPath ps
    (r.1 ++ rest.1, r.2 :: rest.2)

/-- Embedding of `process_publish_request`: unless dry run, download the
shared media first (a failure aborts the job with the single
`platform: "all"` error entry), then run the per-platform loop; the video
path handed to uploaders is the temp-dir path, or `""` on dry run. -/
def processPublishRequest (env : Env) (req : PublishRequest)
    (dryRun : Bool) (tmpDir : String) : List Effect × List UploadResult :=
  let localVideoPath := tmpDir ++ "/" ++ videoFilename req.videoUrl
  if dryRun then
    publishLoop env req true "" req.platforms
  else
    match env.downloadResult with
    | .error e =>
      ([.download], [errEntry "all" ("Video download failed: " ++ e)])
    | .ok _ =>
      let loop := publishLoop env req false localVideoPath req.platforms
      (.download :: loop.1, loop.2)

/-- Aggregate validity computed by the `/publish` endpoint on a dry run
(`main.py` line 424): every result has status `validated`. -/
def allValid (rs : List UploadResult) : Bool :=
  rs.all fun r => r.status == "validated"

/-- Required secret keys per platform, in the order the dispatcher resolves
them (matches the table in `utils/secrets.validate_channel_secrets`). -/
def requiredKeys : Platform → List String
  | .youtube => ["client_id", "client_secret", "refresh_token"]
  | .tiktok => ["session_cookie"]
  | .facebook => ["access_token", "page_id"]
  | .instagram => ["access_token", "user_id"]

/-- First required key of a platform (the first secret the dispatcher
fetches). -/
def firstRequiredKey (p : Platform) : String :=
  (requiredKeys p).headD ""

/-- Sequential resolution of a platform's required keys, stopping at the
first failure, as the dispatcher's straight-line secret fetches do. -/
def resolveKeysList (env : Env) (ch pname : String) : List String → Except String Unit
  | [] => .ok ()
  | k :: ks =>
    match env.secret ch pname k with
    | .error e => .error e
    | .ok _ => resolveKeysList env ch pname ks

/-- Result entry a dry run produces for one platform, phrased through key
resolution: `validated` when every required key resolves, otherwise an
error dict carrying the first resolution failure's reason. -/
def dryRunEntry (env : Env) (ch : String) (p : Platform) : UploadResult :=
  match resolveKeysList env ch p.value (requiredKeys p) with
  | .ok _ => validatedEntry p.value
  | .error e => errEntry p.value e

/-! ## Helper lemmas -/

theorem uploadVideoToFacebook_platform (api : MetaApi) (vu : String)
    (c : MetaCredentials) (m : MetaVideoMetadata) :
    ((uploadVideoToFacebook api vu c m).2).platform = "facebook" := by
  unfold uploadVideoToFacebook
  split
  · rfl
  · cases api.fbResp <;> rfl

theorem uploadVideoToInstagram_platform (api : MetaApi) (vu : String)
    (c : MetaCredentials) (m : MetaVideoMetadata) :
    ((uploadVideoToInstagram api vu c m).2).platform = "instagram" := by
  unfold uploadVideoToInstagram
  split
  · rfl
  · cases api.createResp with
    | exc msg => rfl
    | statusError code msg => rfl
    | ok cid =>
      simp only []
      split
      · rfl
      · cases (waitForContainerReady api.pollStatus).1 with
        | failedContainer => rfl
        | timedOut => rfl
        | finished =>
          cases hp : api.publishResp with
          | ok i => cases i <;> rfl
          | statusError code msg => rfl
          | exc msg => rfl

theorem uploadToPlatform_platform (env : Env) (hwf : env.WellFormed) (p : Platform)
    (ch vp vu : String) (t d c : Option String) (dr : Bool) :
    ((uploadToPlatform env p ch vp vu t d c dr).2).platform = p.value := by
  cases p
  case youtube =>
    cases h1 : env.secret ch "youtube" "client_id" with
    | error e => simp [uploadToPlatform, h1, errEntry, Platform.value]
    | ok v1 =>
      cases h2 : env.secret ch "youtube" "client_secret" with
      | error e => simp [uploadToPlatform, h1, h2, errEntry, Platform.value]
      | ok v2 =>
        cases h3 : env.secret ch "youtube" "refresh_token" with
        | error e => simp [uploadToPlatform, h1, h2, h3, errEntry, Platform.value]
        | ok v3 =>
          cases dr with
          | true => simp [uploadToPlatform, h1, h2, h3, validatedEntry, Platform.value]
          | false =>
            cases h4 : env.youtubeUpload vp ⟨v1, v2, v3, none⟩ (ytMetaOf t d) with
            | error e => simp [uploadToPlatform, h1, h2, h3, h4, errEntry, Platform.value]
            | ok r =>
              simp only [uploadToPlatform, h1, h2, h3, h4, Bool.false_eq_true,
                if_false, Platform.value]
              exact hwf.1 _ _ _ _ h4
  case tiktok =>
    cases h1 : env.secret ch "tiktok" "session_cookie" with
    | error e => simp [uploadToPlatform, h1, errEntry, Platform.value]
    | ok v1 =>
      cases dr with
      | true => simp [uploadToPlatform, h1, validatedEntry, Platform.value]
      | false =>
        cases h2 : env.tiktokUpload vp ⟨v1⟩ { caption := pyOrStr c (pyOrStr t "") } with
        | error e => simp [uploadToPlatform, h1, h2, errEntry, Platform.value]
        | ok r =>
          simp only [uploadToPlatform, h1, h2, Bool.false_eq_true, if_false, Platform.value]
          exact hwf.2 _ _ _ _ h2
  case facebook =>
    cases h1 : env.secret ch "facebook" "access_token" with
    | error e => simp [uploadToPlatform, h1, errEntry, Platform.value]
    | ok v1 =>
      cases h2 : env.secret ch "facebook" "page_id" with
      | error e => simp [uploadToPlatform, h1, h2, errEntry, Platform.value]
      | ok v2 =>
        cases dr with
        | true => simp [uploadToPlatform, h1, h2, validatedEntry, Platform.value]
        | false =>
          simp only [uploadToPlatform, h1, h2, Bool.false_eq_true, if_false, Platform.value]
          exact uploadVideoToFacebook_platform env.metaApi vu _ _
  case instagram =>
    cases h1 : env.secret ch "instagram" "access_token" with
    | error e => simp [uploadToPlatform, h1, errEntry, Platform.value]
    | ok v1 =>
      cases h2 : env.secret ch "instagram" "user_id" with
      | error e => simp [uploadToPlatform, h1, h2, errEntry, Platform.value]
      | ok v2 =>
        cases dr with
        | true => simp [uploadToPlatform, h1, h2, validatedEntry, Platform.value]
        | false =>
          simp only [uploadToPlatform, h1, h2, Bool.false_eq_true, if_false, Platform.value]
          exact uploadVideoToInstagram_platform env.metaApi vu _ _

theorem publishLoop_platforms (env : Env) (hwf : env.WellFormed)
    (req : PublishRequest) (dr : Bool) (vp : String) (ps : List Platform) :
    ((publishLoop env req dr vp ps).2).map (fun r => r.platform) = ps.map Platform.value := by
  induction ps with
  | nil => rfl
  | cons p ps ih =>
    simp only [publishLoop, List.map, List.cons.injEq]
    exact ⟨uploadToPlatform_platform env hwf p _ _ _ _ _ _ dr, ih⟩

theorem uploadToPlatform_dryRun (env : Env) (p : Platform) (ch vp vu : String)
    (t d c : Option String) :
    uploadToPlatform env p ch vp vu t d c true = ([], dryRunEntry env ch p) := by
  cases p
  case youtube =>
    unfold uploadToPlatform dryRunEntry requiredKeys Platform.value
    cases h1 : env.secret ch "youtube" "client_id" with
    | error e => simp [resolveKeysList, h1]
    | ok v1 =>
      cases h2 : env.secret ch "youtube" "client_secret" with
      | error e => simp [resolveKeysList, h1, h2]
      | ok v2 =>
        cases h3 : env.secret ch "youtube" "refresh_token" with
        | error e => simp [resolveKeysList, h1, h2, h3]
        | ok v3 => simp [resolveKeysList, h1, h2, h3]
  case tiktok =>
    unfold uploadToPlatform dryRunEntry requiredKeys Platform.value
    cases h1 : env.secret ch "tiktok" "session_cookie" with
    | error e => simp [resolveKeysList, h1]
    | ok v1 => simp [resolveKeysList, h1]
  case facebook =>
    unfold uploadToPlatform dryRunEntry requiredKeys Platform.value
    cases h1 : env.secret ch "facebook" "access_token" with
    | error e => simp [resolveKeysList, h1]
    | ok v1 =>
      cases h2 : env.secret ch "facebook" "page_id" with
      | error e => simp [resolveKeysList, h1, h2]
      | ok v2 => simp [resolveKeysList, h1, h2]
  case instagram =>
    unfold uploadToPlatform dryRunEntry requiredKeys Platform.value
    cases h1 : env.secret ch "instagram" "access_token" with
    | error e => simp [resolveKeysList, h1]
    | ok v1 =>
      cases h2 : env.secret ch "instagram" "user_id" with
      | error e => simp [resolveKeysList, h1, h2]
      | ok v2 => simp [resolveKeysList, h1, h2]

theorem publishLoop_dryRun (env : Env) (req : PublishRequest) (vp : String)
    (ps : List Platform) :
    publishLoop env req true vp ps = ([], ps.map (dryRunEntry env req.channelId)) := by
  induction ps with
  | nil => rfl
  | cons p ps ih =>
    simp only [publishLoop, ih, uploadToPlatform_dryRun, List.map]
    rfl

theorem dryRunEntry_validated (env : Env) (ch : String) (p : Platform) :
    ((dryRunEntry env ch p).status == "validated")
      = (resolveKeysList env ch p.value (requiredKeys p)).isOk := by
  unfold dryRunEntry
  cases h : resolveKeysList env ch p.value (requiredKeys p) <;> rfl

theorem allValid_dryRunEntries (env : Env) (ch : String) (ps : List Platform) :
    allValid (ps.map (dryRunEntry env ch))
      = ps.all (fun p => (resolveKeysList env ch p.value (requiredKeys p)).isOk) := by
  induction ps with
  | nil => rfl
  | cons p ps ih =>
    simp only [allValid, List.map, List.all_cons] at *
    rw [ih, dryRunEntry_validated]

/-! ## Witness environments -/

/-- Secret store in which every lookup succeeds. -/
def secretsOkW : String → String → String → Except String String :=
  fun ch p k => .ok (ch ++ ":" ++ p ++ ":" ++ k)

/-- Graph API oracle in which every call succeeds. -/
def apiW : MetaApi :=
  { fbResp := .okWithId "fb1",
    createResp := .ok (some "c1"),
    pollStatus := fun _ => some "FINISHED",
    publishResp := .ok (some "m1") }

/-- Environment in which every collaborator succeeds. -/
def envW : Env :=
  { secret := secretsOkW,
    downloadResult := .ok (),
    youtubeUpload := fun _ _ _ => .ok { platform := "youtube", status := "success", videoId := some "yt1" },
    tiktokUpload := fun _ _ _ => .ok { platform := "tiktok", status := "success" },
    metaApi := apiW }

theorem envW_wf : envW.WellFormed := by
  constructor
  · intro path c m r h
    cases h
    rfl
  · intro path c m r h
    cases h
    rfl

/-- Environment whose YouTube and TikTok uploaders always raise. -/
def envRaiseW : Env :=
  { envW with
    youtubeUpload := fun _ _ _ => .error "boom",
    tiktokUpload := fun _ _ _ => .error "boom" }

theorem envRaiseW_wf : envRaiseW.WellFormed := by
  refine ⟨?_, ?_⟩ <;> intro path c m r h <;> exact absurd h (by simp [envRaiseW, envW])

/-- Environment whose shared media download fails. -/
def envDlFailW : Env :=
  { envW with downloadResult := .error "404 Not Found" }

/-- A concrete publish request. -/
def reqW : PublishRequest :=
  { channelId := "timeline_b",
    videoUrl := "https://storage.example/timeline-b/video.mp4",
    platforms := [.youtube, .facebook] }

/-! ## Claims -/

/-- C1: for every job in which the shared media download succeeds (or is
skipped because the job is a dry run), the result list returned by the
orchestrator has exactly one entry per requested platform, and the platform
order of the entries equals the order of the requested platform list
(duplicates included). -/
theorem publish_results_match_requested_platform_order
    (env : Env) (hwf : env.WellFormed) (req : PublishRequest)
    (dryRun : Bool) (tmpDir : String)
    (h : dryRun = true ∨ env.downloadResult = .ok ()) :
    ((processPublishRequest env req dryRun tmpDir).2).map (fun r => r.platform)
      = req.platforms.map Platform.value := by
  cases dryRun with
  | true =>
    simp only [processPublishRequest, if_true]
    exact publishLoop_platforms env hwf req true "" req.platforms
  | false =>
    rcases h with h | h
    · exact absurd h (by simp)
    · simp only [processPublishRequest, Bool.false_eq_true, if_false, h]
      exact publishLoop_platforms env hwf req false _ req.platforms

/-- Witness for C1 at a concrete environment and request. -/
theorem publish_results_match_requested_platform_order_witness :
    ((processPublishRequest envW reqW false "/tmp").2).map (fun r => r.platform)
      = [Platform.youtube, Platform.facebook].map Platform.value :=
  publish_results_match_requested_platform_order envW envW_wf reqW false "/tmp" (Or.inr rfl)

/-- C2: for every non-dry-run job and every requested platform, any error
arising inside that platform's upload attempt (missing credential, upstream
rejection, exhausted retries, automation failure, timeout) is converted into
a result entry with status `error` for that platform, and the orchestration
loop continues to attempt every subsequent requested platform; only a
download failure ends the job without per-platform attempts. -/
theorem per_platform_errors_isolated
    (env : Env) (hwf : env.WellFormed) (req : PublishRequest) (tmpDir : String) :
    -- a raised exception in the YouTube uploader becomes an error entry
    (∀ ch vp vu t d c e,
      (∀ path cr m, env.youtubeUpload path cr m = .error e) →
      (uploadToPlatform env .youtube ch vp vu t d c false).2.status = "error") ∧
    -- a raised exception in the TikTok uploader becomes an error entry
    (∀ ch vp vu t d c e,
      (∀ path cr m, env.tiktokUpload path cr m = .error e) →
      (uploadToPlatform env .tiktok ch vp vu t d c false).2.status = "error") ∧
    -- a Facebook Graph API rejection becomes an error entry
    (∀ ch vp vu t d c code msg, env.metaApi.fbResp = .statusError code msg →
      (uploadToPlatform env .facebook ch vp vu t d c false).2.status = "error") ∧
    -- an Instagram container-creation exception becomes an error entry
    (∀ ch vp vu t d c msg, env.metaApi.createResp = .exc msg →
      (uploadToPlatform env .instagram ch vp vu t d c false).2.status = "error") ∧
    -- a missing first credential becomes an error entry carrying its reason
    (∀ p ch vp vu t d c e, env.secret ch p.value (firstRequiredKey p) = .error e →
      (uploadToPlatform env p ch vp vu t d c false).2 = errEntry p.value e) ∧
    -- the loop still yields one entry per requested platform, in order
    (env.downloadResult = .ok () →
      ((processPublishRequest env req false tmpDir).2).map (fun r => r.platform)
        = req.platforms.map Platform.value) ∧
    -- only a download failure ends the job without per-platform attempts
    (∀ e, env.downloadResult = .error e →
      (processPublishRequest env req false tmpDir).2
        = [errEntry "all" ("Video download failed: " ++ e)]) := by
  refine ⟨?_, ?_, ?_, ?_, ?_, ?_, ?_⟩
  · intro ch vp vu t d c e hup
    cases h1 : env.secret ch "youtube" "client_id" with
    | error e1 => simp [uploadToPlatform, h1, errEntry]
    | ok v1 =>
      cases h2 : env.secret ch "youtube" "client_secret" with
      | error e2 => simp [uploadToPlatform, h1, h2, errEntry]
      | ok v2 =>
        cases h3 : env.secret ch "youtube" "refresh_token" with
        | error e3 => simp [uploadToPlatform, h1, h2, h3, errEntry]
        | ok v3 => simp [uploadToPlatform, h1, h2, h3, hup, errEntry]
  · intro ch vp vu t d c e hup
    cases h1 : env.secret ch "tiktok" "session_cookie" with
    | error e1 => simp [uploadToPlatform, h1, errEntry]
    | ok v1 => simp [uploadToPlatform, h1, hup, errEntry]
  · intro ch vp vu t d c code msg hfb
    cases h1 : env.secret ch "facebook" "access_token" with
    | error e1 => simp [uploadToPlatform, h1, errEntry]
    | ok v1 =>
      cases h2 : env.secret ch "facebook" "page_id" with
      | error e2 => simp [uploadToPlatform, h1, h2, errEntry]
      | ok v2 =>
        simp only [uploadToPlatform, h1, h2, Bool.false_eq_true, if_false]
        unfold uploadVideoToFacebook
        split
        · rfl
        · rw [hfb]
          rfl
  · intro ch vp vu t d c msg hig
    cases h1 : env.secret ch "instagram" "access_token" with
    | error e1 => simp [uploadToPlatform, h1, errEntry]
    | ok v1 =>
      cases h2 : env.secret ch "instagram" "user_id" with
      | error e2 => simp [uploadToPlatform, h1, h2, errEntry]
      | ok v2 =>
        simp only [uploadToPlatform, h1, h2, Bool.false_eq_true, if_false]
        unfold uploadVideoToInstagram
        split
        · rfl
        · rw [hig]
          rfl
  · intro p ch vp vu t d c e hsec
    cases p <;>
      simp only [Platform.value, firstRequiredKey, requiredKeys, List.headD] at hsec ⊢ <;>
      simp [uploadToPlatform, hsec]
  · intro h
    simp only [processPublishRequest, Bool.false_eq_true, if_false, h]
    exact publishLoop_platforms env hwf req false _ req.platforms
  · intro e h
    simp [processPublishRequest, h]

/-- Witness for C2: a raising YouTube uploader yields an error entry, the
loop still covers both requested platforms, and a download failure yields
the single `all` entry. -/
theorem per_platform_errors_isolated_witness :
    (uploadToPlatform envRaiseW .youtube "ch" "/tmp/v.mp4" "u" none none none false).2.status
        = "error" ∧
    ((processPublishRequest envRaiseW reqW false "/tmp").2).map (fun r => r.platform)
        = [Platform.youtube, Platform.facebook].map Platform.value ∧
    (processPublishRequest envDlFailW reqW false "/tmp").2
        = [errEntry "all" ("Video download failed: " ++ "404 Not Found")] := by
  refine ⟨?_, ?_, ?_⟩
  · exact (per_platform_errors_isolated envRaiseW envRaiseW_wf reqW "/tmp").1
      "ch" "/tmp/v.mp4" "u" none none none "boom" (fun _ _ _ => rfl)
  · exact (per_platform_errors_isolated envRaiseW envRaiseW_wf reqW "/tmp").2.2.2.2.2.1 rfl
  · exact (per_platform_errors_isolated envDlFailW envW_wf reqW "/tmp").2.2.2.2.2.2
      "404 Not Found" rfl

/-- C3: for every non-dry-run job with at least one requested platform, if
the shared media download fails, `publish` returns a result list with
exactly one entry `{platform: "all", status: error, message: <download
failure reason>}`, and no per-platform upload attempt is made (the effect
trace holds only the download attempt). -/
theorem download_failure_short_circuits
    (env : Env) (req : PublishRequest) (tmpDir : String) (e : String)
    (_hN : req.platforms ≠ []) (hd : env.downloadResult = .error e) :
    processPublishRequest env req false tmpDir
      = ([.download], [errEntry "all" ("Video download failed: " ++ e)]) := by
  simp [processPublishRequest, hd]

/-- Witness for C3 at a concrete failing download. -/
theorem download_failure_short_circuits_witness :
    processPublishRequest envDlFailW reqW false "/tmp"
      = ([.download], [errEntry "all" ("Video download failed: " ++ "404 Not Found")]) :=
  download_failure_short_circuits envDlFailW reqW "/tmp" "404 Not Found" (by decide) rfl

/-- C4: for every dry-run job, the orchestrator never performs the media
download and never invokes an uploader's network path (the effect trace is
empty); each requested platform's result has status `validated` if every
required credential key for that platform resolves, and status `error`
carrying the resolution failure reason otherwise; the aggregate `allValid`
is true iff every requested platform's full required-key set resolves. -/
theorem dry_run_validates_without_download
    (env : Env) (req : PublishRequest) (tmpDir : String) :
    processPublishRequest env req true tmpDir
        = ([], req.platforms.map (dryRunEntry env req.channelId)) ∧
    allValid ((processPublishRequest env req true tmpDir).2)
        = req.platforms.all
            (fun p => (resolveKeysList env req.channelId p.value (requiredKeys p)).isOk) := by
  have h1 : processPublishRequest env req true tmpDir
      = ([], req.platforms.map (dryRunEntry env req.channelId)) := by
    simp only [processPublishRequest, if_true]
    exact publishLoop_dryRun env req "" req.platforms
  refine ⟨h1, ?_⟩
  rw [h1]
  exact allValid_dryRunEntries env req.channelId req.platforms

/-- C5 counterexample: a non-dry-run job whose requested platforms all use
remote-URL uploader variants (facebook and instagram) still performs the
shared media download — its effect trace starts with the download — so the
claim that no MediaResource is created for such jobs is false. -/
theorem remote_only_job_still_downloads_counterexample :
    (processPublishRequest envW
        { channelId := "ch", videoUrl := "https://h/v.mp4",
          platforms := [.facebook, .instagram] } false "/tmp").1.head?
      = some .download := rfl

/-- C5 amended: for every non-dry-run job the orchestrator downloads the
shared media into the job-scoped temporary location unconditionally, as the
first effect and before any platform attempt, regardless of whether any
requested platform's uploader variant requires a local file. -/
theorem non_dry_run_always_downloads_first
    (env : Env) (req : PublishRequest) (tmpDir : String) :
    (processPublishRequest env req false tmpDir).1.head? = some .download := by
  cases h : env.downloadResult <;> simp [processPublishRequest, h]

theorem sleepSchedule_shift (n retry : Nat) :
    (List.range (n + 1)).map (fun i => 2 ^ (retry + 1 + i))
      = 2 ^ (retry + 1) :: (List.range n).map (fun i => 2 ^ (retry + 2 + i)) := by
  rw [List.range_succ_eq_map, List.map_cons, List.map_map]
  refine List.cons_eq_cons.mpr ⟨by norm_num, ?_⟩
  apply List.map_congr_left
  intro i _
  simp only [Function.comp_apply]
  congr 1
  omega

theorem resumableUpload_transient_then_done (fails : List ChunkEvent) (retry : Nat) (r : String)
    (htr : ∀ e ∈ fails, e.isTransient = true)
    (hle : retry + fails.length ≤ MAX_RETRIES) :
    resumableUpload (fails ++ [.done r]) retry
      = (.success r, (List.range fails.length).map fun i => 2 ^ (retry + 1 + i)) := by
  induction fails generalizing retry with
  | nil => simp [resumableUpload]
  | cons e fs ih =>
    have hetr : e.isTransient = true := htr e (by simp)
    have hrest : ∀ x ∈ fs, x.isTransient = true := fun x hx => htr x (by simp [hx])
    have hle' : (retry + 1) + fs.length ≤ MAX_RETRIES := by
      simp only [List.length_cons] at hle
      omega
    have hcap : ¬ (retry + 1 > MAX_RETRIES) := by omega
    cases e with
    | done r0 => simp [ChunkEvent.isTransient] at hetr
    | progress => simp [ChunkEvent.isTransient] at hetr
    | httpErr s c0 =>
      have hs : RETRIABLE_STATUS_CODES.contains s = true := by
        simpa [ChunkEvent.isTransient] using hetr
      simp only [List.cons_append, resumableUpload, hs, if_true, hcap, if_false,
        List.length_cons, List.append_eq]
      rw [ih (retry + 1) hrest hle', sleepSchedule_shift]
    | ioErr m =>
      simp only [List.cons_append, resumableUpload, hcap, if_false, List.length_cons,
        List.append_eq]
      rw [ih (retry + 1) hrest hle', sleepSchedule_shift]

theorem resumableUpload_transient_exhausts (fails : List ChunkEvent) (retry : Nat)
    (hne : fails ≠ []) (htr : ∀ e ∈ fails, e.isTransient = true)
    (hgt : MAX_RETRIES < retry + fails.length) :
    (resumableUpload fails retry).1 = .retriesExhausted := by
  induction fails generalizing retry with
  | nil => exact absurd rfl hne
  | cons e fs ih =>
    have hetr : e.isTransient = true := htr e (by simp)
    have hrest : ∀ x ∈ fs, x.isTransient = true := fun x hx => htr x (by simp [hx])
    by_cases hcap : retry + 1 > MAX_RETRIES
    · cases e with
      | done r0 => simp [ChunkEvent.isTransient] at hetr
      | progress => simp [ChunkEvent.isTransient] at hetr
      | httpErr s c0 =>
        have hs : RETRIABLE_STATUS_CODES.contains s = true := by
          simpa [ChunkEvent.isTransient] using hetr
        have hs' : s ∈ RETRIABLE_STATUS_CODES := by simpa using hs
        simp [resumableUpload, hs, hs', hcap]
      | ioErr m => simp [resumableUpload, hcap]
    · have hfs : fs ≠ [] := by
        intro hnil
        subst hnil
        simp only [List.length_cons, List.length_nil] at hgt
        omega
      have hgt' : MAX_RETRIES < (retry + 1) + fs.length := by
        simp only [List.length_cons] at hgt
        omega
      cases e with
      | done r0 => simp [ChunkEvent.isTransient] at hetr
      | progress => simp [ChunkEvent.isTransient] at hetr
      | httpErr s c0 =>
        have hs : RETRIABLE_STATUS_CODES.contains s = true := by
          simpa [ChunkEvent.isTransient] using hetr
        simp only [resumableUpload, hs, if_true, hcap, if_false]
        exact ih (retry + 1) hfs hrest hgt'
      | ioErr m =>
        simp only [resumableUpload, hcap, if_false]
        exact ih (retry + 1) hfs hrest hgt'

/-- C6: for the chunked-resumable YouTube uploader, a run of at most
`MAX_RETRIES` consecutive transient failures followed by a successful chunk
ultimately succeeds, each retry preceded by a sleep whose `random()`
multiplier is `2 ^ attempt` (attempts numbered from 1, recorded in order);
a run of more than `MAX_RETRIES` consecutive transient failures ends in the
retries-exhausted error. -/
theorem resumable_upload_retry_semantics (fails : List ChunkEvent) (r : String)
    (htr : ∀ e ∈ fails, e.isTransient = true) :
    (fails.length ≤ MAX_RETRIES →
      resumableUpload (fails ++ [.done r]) 0
        = (.success r, (List.range fails.length).map fun i => 2 ^ (i + 1))) ∧
    (MAX_RETRIES < fails.length →
      (resumableUpload fails 0).1 = .retriesExhausted) := by
  constructor
  · intro hle
    rw [resumableUpload_transient_then_done fails 0 r htr (by omega)]
    refine congrArg _ ?_
    apply List.map_congr_left
    intro i _
    congr 1
    omega
  · intro hgt
    have hne : fails ≠ [] := by
      intro hnil
      subst hnil
      simp [MAX_RETRIES] at hgt
    exact resumableUpload_transient_exhausts fails 0 hne htr (by omega)

/-- Witness for C6: three transient failures then success yields the
response with sleep factors 2, 4, 8; eleven consecutive transient failures
exhaust the ten retries. -/
theorem resumable_upload_retry_semantics_witness :
    resumableUpload (List.replicate 3 (ChunkEvent.ioErr "net") ++ [.done "resp"]) 0
        = (.success "resp", [2, 4, 8]) ∧
    (resumableUpload (List.replicate 11 (ChunkEvent.ioErr "net")) 0).1
        = .retriesExhausted := by
  constructor
  · exact ((resumable_upload_retry_semantics (List.replicate 3 (ChunkEvent.ioErr "net"))
      "resp" (by decide)).1 (by decide)).trans (by decide)
  · exact (resumable_upload_retry_semantics (List.replicate 11 (ChunkEvent.ioErr "net"))
      "resp" (by decide)).2 (by decide)

theorem waitLoop_processing_then_finished (remaining k queries : Nat)
    (f : Nat → Option String) (hk : k < remaining)
    (hproc : ∀ i, i < k → f (queries + i) = some "PROCESSING")
    (hfin : f (queries + k) = some "FINISHED") :
    waitLoop f queries remaining = (.finished, queries + k + 1) := by
  induction remaining generalizing k queries with
  | zero => omega
  | succ r ih =>
    cases k with
    | zero =>
      have h0 : f queries = some "FINISHED" := by simpa using hfin
      simp [waitLoop, h0]
    | succ k' =>
      have hp : f queries = some "PROCESSING" := by
        simpa using hproc 0 (by omega)
      have step : waitLoop f queries (r + 1) = waitLoop f (queries + 1) r := by
        simp [waitLoop, hp]
      rw [step, show queries + (k' + 1) + 1 = (queries + 1) + k' + 1 from by omega]
      refine ih k' (queries + 1) (by omega) ?_ ?_
      · intro i hi
        rw [show queries + 1 + i = queries + (i + 1) from by omega]
        exact hproc (i + 1) (by omega)
      · rw [show queries + 1 + k' = queries + (k' + 1) from by omega]
        exact hfin

theorem waitLoop_all_processing (remaining queries : Nat) (f : Nat → Option String)
    (hproc : ∀ i, i < remaining → f (queries + i) = some "PROCESSING") :
    waitLoop f queries remaining = (.timedOut, queries + remaining) := by
  induction remaining generalizing queries with
  | zero => simp [waitLoop]
  | succ r ih =>
    have hp : f queries = some "PROCESSING" := by
      simpa using hproc 0 (by omega)
    have step : waitLoop f queries (r + 1) = waitLoop f (queries + 1) r := by
      simp [waitLoop, hp]
    rw [step, show queries + (r + 1) = (queries + 1) + r from by omega]
    refine ih (queries + 1) ?_
    intro i hi
    rw [show queries + 1 + i = queries + (i + 1) from by omega]
    exact hproc (i + 1) (by omega)

theorem waitLoop_processing_then_error (remaining j queries : Nat)
    (f : Nat → Option String) (hj : j < remaining)
    (hproc : ∀ i, i < j → f (queries + i) = some "PROCESSING")
    (herr : f (queries + j) = some "ERROR" ∨ f (queries + j) = some "EXPIRED") :
    waitLoop f queries remaining = (.failedContainer, queries + j + 1) := by
  induction remaining generalizing j queries with
  | zero => omega
  | succ r ih =>
    cases j with
    | zero =>
      rcases herr with h0 | h0
      · have h0' : f queries = some "ERROR" := by simpa using h0
        simp [waitLoop, h0']
      · have h0' : f queries = some "EXPIRED" := by simpa using h0
        simp [waitLoop, h0']
    | succ j' =>
      have hp : f queries = some "PROCESSING" := by
        simpa using hproc 0 (by omega)
      have step : waitLoop f queries (r + 1) = waitLoop f (queries + 1) r := by
        simp [waitLoop, hp]
      rw [step, show queries + (j' + 1) + 1 = (queries + 1) + j' + 1 from by omega]
      refine ih j' (queries + 1) (by omega) ?_ ?_
      · intro i hi
        rw [show queries + 1 + i = queries + (i + 1) from by omega]
        exact hproc (i + 1) (by omega)
      · rw [show queries + 1 + j' = queries + (j' + 1) from by omega]
        exact herr

/-- C7: for the async-container poller, a status sequence of k occurrences
of `PROCESSING` followed by `FINISHED` (with k+1 at most the maximum attempt
count) succeeds after exactly k+1 status queries; `MAX_POLL_ATTEMPTS`
occurrences of `PROCESSING` with no terminal status time out; an `ERROR`
(or `EXPIRED`) status at any poll fails immediately with no further
polling. -/
theorem container_poll_semantics (f : Nat → Option String) :
    (∀ k, k + 1 ≤ MAX_POLL_ATTEMPTS →
      (∀ i, i < k → f i = some "PROCESSING") → f k = some "FINISHED" →
      waitForContainerReady f = (.finished, k + 1)) ∧
    ((∀ i, i < MAX_POLL_ATTEMPTS → f i = some "PROCESSING") →
      waitForContainerReady f = (.timedOut, MAX_POLL_ATTEMPTS)) ∧
    (∀ j, j < MAX_POLL_ATTEMPTS →
      (∀ i, i < j → f i = some "PROCESSING") →
      (f j = some "ERROR" ∨ f j = some "EXPIRED") →
      waitForContainerReady f = (.failedContainer, j + 1)) := by
  refine ⟨?_, ?_, ?_⟩
  · intro k hk hproc hfin
    have := waitLoop_processing_then_finished MAX_POLL_ATTEMPTS k 0 f (by omega)
      (by simpa using hproc) (by simpa using hfin)
    simpa [waitForContainerReady] using this
  · intro hproc
    have := waitLoop_all_processing MAX_POLL_ATTEMPTS 0 f (by simpa using hproc)
    simpa [waitForContainerReady] using this
  · intro j hj hproc herr
    have := waitLoop_processing_then_error MAX_POLL_ATTEMPTS j 0 f (by omega)
      (by simpa using hproc) (by simpa using herr)
    simpa [waitForContainerReady] using this

/-- Witness for C7: two `PROCESSING` polls then `FINISHED` succeed after 3
queries; 120 `PROCESSING` polls time out; an `ERROR` at the fourth poll
fails after exactly 4 queries. -/
theorem container_poll_semantics_witness :
    waitForContainerReady (fun i => if i < 2 then some "PROCESSING" else some "FINISHED")
        = (.finished, 3) ∧
    waitForContainerReady (fun _ => some "PROCESSING") = (.timedOut, 120) ∧
    waitForContainerReady (fun i => if i < 3 then some "PROCESSING" else some "ERROR")
        = (.failedContainer, 4) := by
  refine ⟨?_, ?_, ?_⟩
  · exact (container_poll_semantics _).1 2 (by norm_num [MAX_POLL_ATTEMPTS])
      (fun i hi => by simp [hi]) (by norm_num)
  · exact (container_poll_semantics _).2.1 (fun i _ => rfl)
  · exact (container_poll_semantics _).2.2 3 (by norm_num [MAX_POLL_ATTEMPTS])
      (fun i hi => by simp [hi]) (Or.inl (by norm_num))

/-- A TikTok browser session in which every step succeeds except that the
bounded wait for an enabled Post button times out on every selector. -/
def tiktokRunExhaustedWaitW : TikTokRun :=
  { navTimeout := false, urlAfterNav := "tiktok.com/upload", uploadReady := true,
    fileUpload := .found, processing := .allTimedOut,
    captionOutcome := .noneMatched, postClick := .clicked }

/-- A TikTok browser session in which the Post-button click fails. -/
def tiktokRunClickFailW : TikTokRun :=
  { tiktokRunExhaustedWaitW with processing := .enabled 0, postClick := .noEnabledButton }

/-- C8 counterexample: exhausting the bounded wait for an enabled submit
control does not abort the upload attempt — the pipeline continues anyway
and this run ends with status `success`, contradicting the claim that such
a failure aborts with a step-specific error. -/
theorem processing_wait_exhaustion_does_not_abort :
    tiktokUploadVideo true "/tmp/v.mp4" tiktokRunExhaustedWaitW { caption := "cap" }
      = .ok { platform := "tiktok", status := "success",
              message := some "Video uploaded successfully", caption := some "cap" } := rfl

/-- C8 amended: the failure of each step of the TikTok automation pipeline
(missing file, navigation timeout, login redirect, upload surface not
rendering, file attach failure, Post-button click failure) aborts the whole
attempt with that step's error message, and an unexpected exception while
waiting for processing also aborts; but exhausting the bounded wait for an
enabled submit control is non-fatal (the pipeline continues and can
succeed), and the caption-fill outcome never affects the result. -/
theorem tiktok_step_failure_semantics (vp : String) (run : TikTokRun)
    (m : TikTokVideoMetadata) :
    (tiktokUploadVideo false vp run m = .error ("Video file not found: " ++ vp)) ∧
    (run.navTimeout = true →
      tiktokUploadVideo true vp run m
        = .ok (errEntry "tiktok" "Navigation timeout - TikTok may be blocking automated access")) ∧
    (run.navTimeout = false →
     containsSub (lowerStr run.urlAfterNav) "login" = true →
      tiktokUploadVideo true vp run m
        = .ok (errEntry "tiktok" "Session cookie expired. Please extract a new cookie.")) ∧
    (run.navTimeout = false →
     containsSub (lowerStr run.urlAfterNav) "login" = false →
     run.uploadReady = false →
      tiktokUploadVideo true vp run m
        = .ok (errEntry "tiktok" "Upload page failed to load")) ∧
    (run.navTimeout = false →
     containsSub (lowerStr run.urlAfterNav) "login" = false →
     run.uploadReady = true →
     uploadVideoFile run.fileUpload = false →
      tiktokUploadVideo true vp run m
        = .ok (errEntry "tiktok" "Failed to upload video file")) ∧
    (∀ msg, run.navTimeout = false →
     containsSub (lowerStr run.urlAfterNav) "login" = false →
     run.uploadReady = true →
     uploadVideoFile run.fileUpload = true →
     run.processing = .exc msg →
      tiktokUploadVideo true vp run m
        = .ok (errEntry "tiktok" "Video processing failed or timed out")) ∧
    (run.navTimeout = false →
     containsSub (lowerStr run.urlAfterNav) "login" = false →
     run.uploadReady = true →
     uploadVideoFile run.fileUpload = true →
     waitForVideoProcessing run.processing = true →
     clickPostButton run.postClick = false →
      tiktokUploadVideo true vp run m
        = .ok (errEntry "tiktok" "Failed to click Post button")) ∧
    (run.navTimeout = false →
     containsSub (lowerStr run.urlAfterNav) "login" = false →
     run.uploadReady = true →
     uploadVideoFile run.fileUpload = true →
     run.processing = .allTimedOut →
     clickPostButton run.postClick = true →
      tiktokUploadVideo true vp run m = .ok (tiktokSuccessEntry m)) ∧
    (∀ co, tiktokUploadVideo true vp { run with captionOutcome := co } m
        = tiktokUploadVideo true vp run m) := by
  refine ⟨?_, ?_, ?_, ?_, ?_, ?_, ?_, ?_, ?_⟩
  · simp [tiktokUploadVideo]
  · intro h1
    simp [tiktokUploadVideo, h1]
  · intro h1 h2
    simp [tiktokUploadVideo, h1, h2]
  · intro h1 h2 h3
    simp [tiktokUploadVideo, h1, h2, h3]
  · intro h1 h2 h3 h4
    simp [tiktokUploadVideo, h1, h2, h3, h4]
  · intro msg h1 h2 h3 h4 h5
    simp [tiktokUploadVideo, h1, h2, h3, h4, h5, waitForVideoProcessing]
  · intro h1 h2 h3 h4 h5 h6
    simp [tiktokUploadVideo, h1, h2, h3, h4, h5, h6]
  · intro h1 h2 h3 h4 h5 h6
    simp [tiktokUploadVideo, h1, h2, h3, h4, h5, h6, waitForVideoProcessing]
  · intro co
    rfl

/-- Witness for C8's amended theorem: a failing Post-button click aborts
with its step message, and a missing file raises before automation. -/
theorem tiktok_step_failure_semantics_witness :
    tiktokUploadVideo true "/tmp/v.mp4" tiktokRunClickFailW { caption := "cap" }
        = .ok (errEntry "tiktok" "Failed to click Post button") ∧
    tiktokUploadVideo false "/tmp/v.mp4" tiktokRunClickFailW { caption := "cap" }
        = .error ("Video file not found: " ++ "/tmp/v.mp4") := by
  constructor
  · exact (tiktok_step_failure_semantics "/tmp/v.mp4" tiktokRunClickFailW
      { caption := "cap" }).2.2.2.2.2.2.1 rfl (by decide) rfl rfl rfl rfl
  · exact (tiktok_step_failure_semantics "/tmp/v.mp4" tiktokRunClickFailW
      { caption := "cap" }).1

/-- C9: for the direct-remote-fetch uploaders, a missing target container
identifier (Facebook `page_id`, Instagram `instagram_user_id`) makes the
upload call fail fast with the missing-configuration error result before
any network call is made (the Graph API call trace is empty). -/
theorem meta_missing_container_id_fails_fast (api : MetaApi) (vu : String)
    (c : MetaCredentials) (m : MetaVideoMetadata) :
    (pyFalsy c.pageId = true →
      uploadVideoToFacebook api vu c m
        = ([], errEntry "facebook" "page_id is required for Facebook uploads")) ∧
    (pyFalsy c.instagramUserId = true →
      uploadVideoToInstagram api vu c m
        = ([], errEntry "instagram" "instagram_user_id is required for Instagram uploads")) := by
  constructor
  · intro h
    simp [uploadVideoToFacebook, h]
  · intro h
    simp [uploadVideoToInstagram, h]

/-- Witness for C9 at credentials with both identifiers absent. -/
theorem meta_missing_container_id_fails_fast_witness :
    uploadVideoToFacebook apiW "u" { accessToken := "t" } {}
        = ([], errEntry "facebook" "page_id is required for Facebook uploads") ∧
    uploadVideoToInstagram apiW "u" { accessToken := "t" } {}
        = ([], errEntry "instagram" "instagram_user_id is required for Instagram uploads") :=
  ⟨(meta_missing_container_id_fails_fast apiW "u" { accessToken := "t" } {}).1 rfl,
   (meta_missing_container_id_fails_fast apiW "u" { accessToken := "t" } {}).2 rfl⟩

theorem instagramContainerParams_no_crosspost (vu : String) (c : MetaCredentials)
    (m : MetaVideoMetadata) (hpage : c.pageId = none) :
    (instagramContainerParams vu c m).lookup "collaborate_with_sharing_on_facebook" = none := by
  simp [instagramContainerParams, hpage, pyFalsy, List.lookup]

theorem ig_containerCreate_params (api : MetaApi) (vu : String) (c : MetaCredentials)
    (m : MetaVideoMetadata) (u : String) (ps : List (String × String))
    (hmem : MetaCall.containerCreate u ps ∈ (uploadVideoToInstagram api vu c m).1) :
    ps = instagramContainerParams vu c m := by
  by_cases hu : pyFalsy c.instagramUserId = true
  · simp [uploadVideoToInstagram, hu] at hmem
  · cases hc : api.createResp with
    | exc msg =>
      simp [uploadVideoToInstagram, hu, hc] at hmem
      exact hmem.2
    | statusError code msg =>
      simp [uploadVideoToInstagram, hu, hc] at hmem
      exact hmem.2
    | ok cidOpt =>
      by_cases hcid : pyFalsy cidOpt = true
      · simp [uploadVideoToInstagram, hu, hc, hcid] at hmem
        exact hmem.2
      · cases hp : (waitForContainerReady api.pollStatus).1 with
        | failedContainer =>
          simp [uploadVideoToInstagram, hu, hc, hcid, hp, List.mem_replicate] at hmem
          exact hmem.2
        | timedOut =>
          simp [uploadVideoToInstagram, hu, hc, hcid, hp, List.mem_replicate] at hmem
          exact hmem.2
        | finished =>
          cases hpub : api.publishResp with
          | ok i =>
            cases i <;>
              · simp [uploadVideoToInstagram, hu, hc, hcid, hp, hpub,
                  List.mem_replicate] at hmem
                exact hmem.2
          | statusError code msg =>
            simp [uploadVideoToInstagram, hu, hc, hcid, hp, hpub,
              List.mem_replicate] at hmem
            exact hmem.2
          | exc msg =>
            simp [uploadVideoToInstagram, hu, hc, hcid, hp, hpub,
              List.mem_replicate] at hmem
            exact hmem.2

theorem ig_success_crosspost_false (api : MetaApi) (vu : String) (c : MetaCredentials)
    (m : MetaVideoMetadata) (hpage : c.pageId = none)
    (hst : ((uploadVideoToInstagram api vu c m).2).status = "success") :
    ((uploadVideoToInstagram api vu c m).2).crossPostedToFacebook = some false := by
  by_cases hu : pyFalsy c.instagramUserId = true
  · simp [uploadVideoToInstagram, hu, errEntry] at hst
  · cases hc : api.createResp with
    | exc msg => simp [uploadVideoToInstagram, hu, hc, errEntry] at hst
    | statusError code msg => simp [uploadVideoToInstagram, hu, hc, errEntry] at hst
    | ok cidOpt =>
      by_cases hcid : pyFalsy cidOpt = true
      · simp [uploadVideoToInstagram, hu, hc, hcid, errEntry] at hst
      · cases hp : (waitForContainerReady api.pollStatus).1 with
        | failedContainer =>
          simp [uploadVideoToInstagram, hu, hc, hcid, hp, errEntry] at hst
        | timedOut =>
          simp [uploadVideoToInstagram, hu, hc, hcid, hp, errEntry] at hst
        | finished =>
          cases hpub : api.publishResp with
          | ok i =>
            cases i with
            | none => simp [uploadVideoToInstagram, hu, hc, hcid, hp, hpub, errEntry] at hst
            | some mid => simp [uploadVideoToInstagram, hu, hc, hcid, hp, hpub, hpage]
          | statusError code msg =>
            simp [uploadVideoToInstagram, hu, hc, hcid, hp, hpub, errEntry] at hst
          | exc msg =>
            simp [uploadVideoToInstagram, hu, hc, hcid, hp, hpub, errEntry] at hst

/-- C10: for every Instagram upload dispatched through the orchestrator's
platform dispatcher, the credentials are constructed without a `page_id`,
so the Facebook cross-post request parameter is never among the
container-creation parameters sent, and a success result always carries
`cross_posted_to_facebook = false`, regardless of the metadata's share
flag. -/
theorem instagram_dispatch_never_cross_posts
    (env : Env) (ch vp vu : String) (t d c : Option String) (tok uid : String)
    (h1 : env.secret ch "instagram" "access_token" = .ok tok)
    (h2 : env.secret ch "instagram" "user_id" = .ok uid) :
    (instagramDispatchCredentials tok uid).pageId = none ∧
    (∀ u ps, Effect.metaCall (.containerCreate u ps)
        ∈ (uploadToPlatform env .instagram ch vp vu t d c false).1 →
      ps.lookup "collaborate_with_sharing_on_facebook" = none) ∧
    (((uploadToPlatform env .instagram ch vp vu t d c false).2).status = "success" →
      ((uploadToPlatform env .instagram ch vp vu t d c false).2).crossPostedToFacebook
        = some false) := by
  refine ⟨rfl, ?_, ?_⟩
  · intro u ps hmem
    simp only [uploadToPlatform, h1, h2, Bool.false_eq_true, if_false,
      List.mem_cons, List.mem_map] at hmem
    cases hmem with
    | inl hbad => exact absurd hbad (by simp)
    | inr hex =>
      obtain ⟨call, hcall, heq⟩ := hex
      have hcall' : call = MetaCall.containerCreate u ps := by
        injection heq
      subst hcall'
      have hps := ig_containerCreate_params env.metaApi vu
        (instagramDispatchCredentials tok uid)
        { caption := pyOrStr c (pyOrStr d (pyOrStr t "")) } u ps hcall
      rw [hps]
      exact instagramContainerParams_no_crosspost vu _ _ rfl
  · intro hst
    simp only [uploadToPlatform, h1, h2, Bool.false_eq_true, if_false] at hst ⊢
    exact ig_success_crosspost_false env.metaApi vu _ _ rfl hst

/-- Witness for C10 at a concrete environment where the Instagram secrets
resolve and the Graph API succeeds. -/
theorem instagram_dispatch_never_cross_posts_witness :
    (instagramDispatchCredentials
        ("timeline_b" ++ ":" ++ "instagram" ++ ":" ++ "access_token")
        ("timeline_b" ++ ":" ++ "instagram" ++ ":" ++ "user_id")).pageId = none ∧
    ((uploadToPlatform envW .instagram "timeline_b" "" "https://h/v.mp4"
        none none (some "cap") false).2).crossPostedToFacebook = some false := by
  constructor
  · exact (instagram_dispatch_never_cross_posts envW "timeline_b" "" "https://h/v.mp4"
      none none (some "cap")
      ("timeline_b" ++ ":" ++ "instagram" ++ ":" ++ "access_token")
      ("timeline_b" ++ ":" ++ "instagram" ++ ":" ++ "user_id") rfl rfl).1
  · exact (instagram_dispatch_never_cross_posts envW "timeline_b" "" "https://h/v.mp4"
      none none (some "cap")
      ("timeline_b" ++ ":" ++ "instagram" ++ ":" ++ "access_token")
      ("timeline_b" ++ ":" ++ "instagram" ++ ":" ++ "user_id") rfl rfl).2.2 rfl
